import Mathlib

/-!
Verification of the DespamLy moderation core against its specification.

The Python source is shallowly embedded: each `def` below mirrors one
function or dataclass of the repository (file and symbol named in the doc
comment).  Floating-point scores and timestamps are modelled as exact
rationals; Python dictionaries become association lists; the Telegram
transport is modelled as a list of emitted effects.
-/

namespace DespamLy

/-- `Action` enum from `src/core/types.py`. -/
inductive Action where
  | approve
  | notify
  | delete
  | kick
  deriving DecidableEq, Repr

/-- `FilterResult` dataclass from `src/core/types.py`: one estimator's
output (`score`, `confidence`, both probabilities). -/
structure FilterResult where
  filter_name : String
  score : ℚ
  confidence : ℚ
  deriving DecidableEq, Repr

/-- `AnalysisResult` dataclass from `src/core/types.py`.  The dataclass
declares all three filter results as required fields, and
`FilterCoordinator.analyze` (src/core/coordinator.py) always constructs
them (each filter falls back to a neutral `FilterResult` rather than
`None`, see `src/filters/pattern.py`), so they are modelled as plain
fields. -/
structure AnalysisResult where
  keyword_result : FilterResult
  tfidf_result : FilterResult
  pattern_result : FilterResult
  deriving DecidableEq, Repr

/-- `AnalysisResult.average_score` property from `src/core/types.py`:
keyword 20%, tfidf 40%, pattern 40%. -/
def AnalysisResult.average_score (a : AnalysisResult) : ℚ :=
  a.keyword_result.score * (20 / 100) +
    a.tfidf_result.score * (40 / 100) +
    a.pattern_result.score * (40 / 100)

/-- `AnalysisResult.max_score` property from `src/core/types.py`. -/
def AnalysisResult.max_score (a : AnalysisResult) : ℚ :=
  max a.keyword_result.score (max a.tfidf_result.score a.pattern_result.score)

/-- `AnalysisResult.all_high` property from `src/core/types.py`
(every score `≥ 0.7`). -/
def AnalysisResult.all_high (a : AnalysisResult) : Bool :=
  a.keyword_result.score ≥ 7 / 10 ∧
    a.tfidf_result.score ≥ 7 / 10 ∧ a.pattern_result.score ≥ 7 / 10

/-- `ChatConfig` record from `src/storage/interfaces.py` (fields as read
back by `src/storage/postgres.py`, including `moderator_channel_id`).
`whitelist` is `list[str] | None` in the source, hence `Option`. -/
structure ChatConfig where
  chat_id : Int
  chat_title : Option String
  owner_id : Int
  policy_mode : String
  meta_delete : ℚ
  meta_kick : ℚ
  is_active : Bool
  whitelist : Option (List String)
  moderator_channel_id : Option Int
  deriving DecidableEq, Repr

/-- `_extract_confidence` from `src/bot/handlers/moderation.py`: returns
`analysis.pattern_result.score` when the pattern result is present, else
the blended `average_score`.  In the embedded data model
`pattern_result` is a required field (see `AnalysisResult` above), so the
`is not None` guard of the source is always taken and the function
reduces to the pattern score. -/
def extract_confidence (a : AnalysisResult) : ℚ :=
  a.pattern_result.score

/-- `_decide_action` from `src/bot/handlers/moderation.py`: the adapted
PolicyEngine.  `meta_score` is `_extract_confidence`; any mode other than
`notify_only` and `delete_and_ban` falls into the `delete_only` default
branch. -/
def decide_action (analysis : AnalysisResult) (cfg : ChatConfig) : Action :=
  let meta_score := extract_confidence analysis
  if cfg.policy_mode = "notify_only" then
    if meta_score ≥ cfg.meta_delete then Action.notify else Action.approve
  else if cfg.policy_mode = "delete_and_ban" then
    if meta_score ≥ cfg.meta_kick then Action.kick
    else if meta_score ≥ cfg.meta_delete then Action.delete
    else Action.approve
  else
    if meta_score ≥ cfg.meta_delete then Action.delete else Action.approve

/-- C1: the governing score of the policy decision is the feature-based
(pattern) estimator's raw probability, never the blended weighted score:
`_extract_confidence` returns the pattern score, and in mode
`delete_and_ban` with `kick_threshold = 0.95` a pattern score of `0.97`
yields the `kick` verdict regardless of the keyword and statistical
scores. -/
theorem pattern_score_governs_kick (a : AnalysisResult) (cfg : ChatConfig)
    (hmode : cfg.policy_mode = "delete_and_ban")
    (hkick : cfg.meta_kick = 95 / 100)
    (hpat : a.pattern_result.score = 97 / 100) :
    extract_confidence a = a.pattern_result.score ∧
      decide_action a cfg = Action.kick := by
  refine ⟨rfl, ?_⟩
  unfold decide_action extract_confidence
  rw [hmode, hkick, hpat]
  simp only [String.reduceEq, reduceIte, ge_iff_le]
  norm_num

/-- Witness for C1 at a concrete analysis result and policy. -/
theorem pattern_score_governs_kick_witness :
    extract_confidence
        ⟨⟨"keyword", 1 / 100, 1⟩, ⟨"tfidf", 2 / 100, 1⟩, ⟨"pattern", 97 / 100, 1⟩⟩ =
      (97 : ℚ) / 100 ∧
      decide_action
          ⟨⟨"keyword", 1 / 100, 1⟩, ⟨"tfidf", 2 / 100, 1⟩, ⟨"pattern", 97 / 100, 1⟩⟩
          ⟨-1, none, 7, "delete_and_ban", 85 / 100, 95 / 100, true, none, none⟩ =
        Action.kick :=
  pattern_score_governs_kick _ _ rfl rfl rfl

/-- C2: `_decide_action` follows the mode table with inclusive (`≥`)
thresholds, first match winning: `notify_only` notifies at
`score ≥ delete_threshold`; `delete_and_ban` kicks at
`score ≥ kick_threshold` (checked before delete), else deletes at
`score ≥ delete_threshold`; `delete_only` deletes at
`score ≥ delete_threshold`; otherwise the message is approved. -/
theorem decide_action_mode_table (a : AnalysisResult) (cfg : ChatConfig) :
    (cfg.policy_mode = "notify_only" →
      decide_action a cfg =
        if extract_confidence a ≥ cfg.meta_delete then Action.notify
        else Action.approve) ∧
    (cfg.policy_mode = "delete_and_ban" →
      decide_action a cfg =
        if extract_confidence a ≥ cfg.meta_kick then Action.kick
        else if extract_confidence a ≥ cfg.meta_delete then Action.delete
        else Action.approve) ∧
    (cfg.policy_mode = "delete_only" →
      decide_action a cfg =
        if extract_confidence a ≥ cfg.meta_delete then Action.delete
        else Action.approve) := by
  refine ⟨fun h => ?_, fun h => ?_, fun h => ?_⟩ <;>
    · unfold decide_action
      rw [h]
      simp only [String.reduceEq, reduceIte]

/-- Witness for C2: the boundary case `score = delete_threshold` fires
the delete action in mode `delete_only`. -/
theorem decide_action_mode_table_witness :
    decide_action
        ⟨⟨"keyword", 0, 1⟩, ⟨"tfidf", 0, 1⟩, ⟨"pattern", 85 / 100, 1⟩⟩
        ⟨-1, none, 7, "delete_only", 85 / 100, 95 / 100, true, none, none⟩ =
      if extract_confidence
            ⟨⟨"keyword", 0, 1⟩, ⟨"tfidf", 0, 1⟩, ⟨"pattern", 85 / 100, 1⟩⟩ ≥
          (85 : ℚ) / 100 then Action.delete
      else Action.approve :=
  (decide_action_mode_table _ _).2.2 rfl

/-- C7: `average_score` equals `0.2·keyword + 0.4·statistical +
0.4·feature_based` exactly, and lies in `[0, 1]` whenever each score
does. -/
theorem average_score_weighted_and_bounded (a : AnalysisResult)
    (hk₀ : 0 ≤ a.keyword_result.score) (hk₁ : a.keyword_result.score ≤ 1)
    (ht₀ : 0 ≤ a.tfidf_result.score) (ht₁ : a.tfidf_result.score ≤ 1)
    (hp₀ : 0 ≤ a.pattern_result.score) (hp₁ : a.pattern_result.score ≤ 1) :
    a.average_score =
        (2 / 10) * a.keyword_result.score + (4 / 10) * a.tfidf_result.score +
          (4 / 10) * a.pattern_result.score ∧
      0 ≤ a.average_score ∧ a.average_score ≤ 1 := by
  unfold AnalysisResult.average_score
  refine ⟨by ring, by positivity, by linarith⟩

/-- Witness for C7 at a concrete score triple. -/
theorem average_score_weighted_and_bounded_witness :
    (⟨⟨"keyword", 9 / 10, 1⟩, ⟨"tfidf", 9 / 10, 1⟩,
        ⟨"pattern", 9 / 10, 1⟩⟩ : AnalysisResult).average_score =
        (2 / 10) * (9 / 10 : ℚ) + (4 / 10) * (9 / 10 : ℚ) +
          (4 / 10) * (9 / 10 : ℚ) ∧
      (0 : ℚ) ≤ (⟨⟨"keyword", 9 / 10, 1⟩, ⟨"tfidf", 9 / 10, 1⟩,
        ⟨"pattern", 9 / 10, 1⟩⟩ : AnalysisResult).average_score ∧
      (⟨⟨"keyword", 9 / 10, 1⟩, ⟨"tfidf", 9 / 10, 1⟩,
        ⟨"pattern", 9 / 10, 1⟩⟩ : AnalysisResult).average_score ≤ 1 :=
  average_score_weighted_and_bounded _ (by norm_num) (by norm_num)
    (by norm_num) (by norm_num) (by norm_num) (by norm_num)

/-! ## RateLimiter (`src/bot/services/rate_limiter.py`) -/

/-- Per-key core of `RateLimiter.is_flood`: given the stored timestamp
list of one `(chat_id, user_id)` key and the current time, drop entries
older than 60 s, count events in the trailing 1 s and 60 s windows, and
flag flood at `≥ 3` (1 s) or `≥ 10` (60 s); the offending timestamp is
not appended when flooding. -/
def flood_check (timestamps : List ℚ) (now : ℚ) : Bool × List ℚ :=
  let ts := timestamps.filter (fun t => now - t < 60)
  let recent_1s := (ts.filter (fun t => now - t < 1)).length
  let recent_1m := ts.length
  if recent_1s ≥ 3 then (true, ts)
  else if recent_1m ≥ 10 then (true, ts)
  else (false, ts ++ [now])

/-- The `_windows` dict of `RateLimiter`, keyed by `(chat_id, user_id)`,
together with `_last_cleanup`. -/
structure RateState where
  windows : List ((Int × Int) × List ℚ)
  last_cleanup : ℚ
  deriving DecidableEq, Repr

/-- Dict read with `defaultdict(list)` semantics: a missing key reads as
the empty list. -/
def lookupWindow (ws : List ((Int × Int) × List ℚ)) (k : Int × Int) :
    List ℚ :=
  ((ws.find? (fun p => p.1 = k)).map Prod.snd).getD []

/-- Dict write: replace the entry for `k`, inserting it if absent (the
source's `defaultdict` access inserts the key, and the in-place list
mutation `timestamps[:] = ...` updates it). -/
def setWindow (ws : List ((Int × Int) × List ℚ)) (k : Int × Int)
    (v : List ℚ) : List ((Int × Int) × List ℚ) :=
  if ws.any (fun p => p.1 = k) then
    ws.map (fun p => if p.1 = k then (k, v) else p)
  else ws ++ [(k, v)]

/-- `RateLimiter._cleanup_old_entries`: filter every window to the
trailing 60 s and drop keys whose window becomes empty. -/
def cleanup_old_entries (ws : List ((Int × Int) × List ℚ)) (now : ℚ) :
    List ((Int × Int) × List ℚ) :=
  ws.filterMap (fun p =>
    if (p.2.filter (fun t => now - t < 60)).isEmpty then none
    else some (p.1, p.2.filter (fun t => now - t < 60)))

namespace RateLimiter

/-- `RateLimiter.is_flood`: opportunistic cleanup at most once per 60 s,
then the per-key `flood_check`, storing back the updated window. -/
def is_flood (st : RateState) (chat_id user_id : Int) (now : ℚ) :
    Bool × RateState :=
  let st' :=
    if now - st.last_cleanup > 60 then
      RateState.mk (cleanup_old_entries st.windows now) now
    else st
  let key := (chat_id, user_id)
  let r := flood_check (lookupWindow st'.windows key) now
  (r.1, RateState.mk (setWindow st'.windows key r.2) st'.last_cleanup)

/-- Successive `is_flood` calls for one key, returning the flags in call
order and the final limiter state. -/
def run_calls (chat_id user_id : Int) :
    RateState → List ℚ → List Bool × RateState
  | st, [] => ([], st)
  | st, now :: rest =>
    let r := is_flood st chat_id user_id now
    let rr := run_calls chat_id user_id r.2 rest
    (r.1 :: rr.1, rr.2)

end RateLimiter

section RateLemmas

lemma lookupWindow_nil (k : Int × Int) : lookupWindow [] k = [] := rfl

lemma lookupWindow_single (k : Int × Int) (ts : List ℚ) :
    lookupWindow [(k, ts)] k = ts := by
  simp [lookupWindow, List.find?]

lemma setWindow_nil (k : Int × Int) (v : List ℚ) :
    setWindow [] k v = [(k, v)] := by
  simp [setWindow]

lemma setWindow_single (k : Int × Int) (ts v : List ℚ) :
    setWindow [(k, ts)] k v = [(k, v)] := by
  simp [setWindow]

lemma filter_time_all (l : List ℚ) (now b : ℚ) (h : ∀ t ∈ l, now - t < b) :
    l.filter (fun t => now - t < b) = l := by
  rw [List.filter_eq_self]
  intro t ht
  simpa using h t ht

lemma filter_time_none (l : List ℚ) (now b : ℚ)
    (h : ∀ t ∈ l, ¬(now - t < b)) :
    l.filter (fun t => now - t < b) = [] := by
  rw [List.filter_eq_nil_iff]
  intro t ht
  simpa using h t ht

lemma flood_check_pass (ts : List ℚ) (now : ℚ)
    (h60 : ∀ t ∈ ts, now - t < 60)
    (h1 : (ts.filter (fun t => now - t < 1)).length < 3)
    (hm : ts.length < 10) :
    flood_check ts now = (false, ts ++ [now]) := by
  unfold flood_check
  rw [filter_time_all ts now 60 h60, if_neg (by omega), if_neg (by omega)]

lemma flood_check_burst (ts : List ℚ) (now : ℚ)
    (h60 : ∀ t ∈ ts, now - t < 60)
    (h1 : (ts.filter (fun t => now - t < 1)).length ≥ 3) :
    flood_check ts now = (true, ts) := by
  unfold flood_check
  rw [filter_time_all ts now 60 h60, if_pos (by omega)]

lemma flood_check_minute (ts : List ℚ) (now : ℚ)
    (h60 : ∀ t ∈ ts, now - t < 60)
    (h1 : (ts.filter (fun t => now - t < 1)).length < 3)
    (hm : ts.length ≥ 10) :
    flood_check ts now = (true, ts) := by
  unfold flood_check
  rw [filter_time_all ts now 60 h60, if_neg (by omega), if_pos (by omega)]

lemma is_flood_step (st : RateState) (c u : Int) (now : ℚ)
    (hcl : ¬ now - st.last_cleanup > 60) :
    RateLimiter.is_flood st c u now =
      ((flood_check (lookupWindow st.windows (c, u)) now).1,
        RateState.mk
          (setWindow st.windows (c, u)
            (flood_check (lookupWindow st.windows (c, u)) now).2)
          st.last_cleanup) := by
  unfold RateLimiter.is_flood
  rw [if_neg hcl]

end RateLemmas

/-- Single-key view of successive `is_flood` calls: the state is just
this key's timestamp window plus `_last_cleanup`.  The opportunistic
sweep only pre-filters the window (or drops the key when it empties),
which `flood_check` re-does anyway, so it reduces to updating
`last_cleanup`. -/
def run_single : List ℚ × ℚ → List ℚ → List Bool × (List ℚ × ℚ)
  | s, [] => ([], s)
  | s, now :: rest =>
    let lc' := if now - s.2 > 60 then now else s.2
    let r := flood_check s.1 now
    let rr := run_single (r.2, lc') rest
    (r.1 :: rr.1, rr.2)

section RateCorrespondence

lemma filter_time_idem (l : List ℚ) (now b : ℚ) :
    (l.filter (fun t => now - t < b)).filter (fun t => now - t < b) =
      l.filter (fun t => now - t < b) := by
  rw [List.filter_filter]
  exact List.filter_congr (fun t _ => by simp)

lemma flood_check_filter (ts : List ℚ) (now : ℚ) :
    flood_check (ts.filter (fun t => now - t < 60)) now =
      flood_check ts now := by
  unfold flood_check
  rw [filter_time_idem]

lemma flood_check_eq_of_empty (ts : List ℚ) (now : ℚ)
    (h : ts.filter (fun t => now - t < 60) = []) :
    flood_check ts now = flood_check [] now := by
  rw [← flood_check_filter ts now, h]

lemma cleanup_single (k : Int × Int) (ts : List ℚ) (now : ℚ) :
    cleanup_old_entries [(k, ts)] now =
      if (ts.filter (fun t => now - t < 60)).isEmpty then []
      else [(k, ts.filter (fun t => now - t < 60))] := by
  unfold cleanup_old_entries
  simp only [List.filterMap_cons, List.filterMap_nil]
  by_cases h : (ts.filter (fun t => now - t < 60)).isEmpty
  · rw [if_pos h]
    rw [if_pos h]
  · rw [if_neg h]
    rw [if_neg h]

lemma is_flood_single (c u : Int) (ts : List ℚ) (lc now : ℚ) :
    RateLimiter.is_flood ⟨[((c, u), ts)], lc⟩ c u now =
      ((flood_check ts now).1,
        ⟨[((c, u), (flood_check ts now).2)],
          if now - lc > 60 then now else lc⟩) := by
  unfold RateLimiter.is_flood
  by_cases hcl : now - lc > 60
  · rw [if_pos hcl, if_pos hcl]
    simp only [cleanup_single]
    by_cases h : (ts.filter (fun t => now - t < 60)).isEmpty
    · rw [if_pos h, lookupWindow_nil, setWindow_nil,
        flood_check_eq_of_empty ts now (List.isEmpty_iff.1 h)]
    · rw [if_neg h, lookupWindow_single, setWindow_single,
        flood_check_filter]
  · rw [if_neg hcl, if_neg hcl]
    simp only [lookupWindow_single, setWindow_single]

lemma is_flood_empty (c u : Int) (lc now : ℚ) :
    RateLimiter.is_flood ⟨[], lc⟩ c u now =
      ((flood_check [] now).1,
        ⟨[((c, u), (flood_check [] now).2)],
          if now - lc > 60 then now else lc⟩) := by
  unfold RateLimiter.is_flood
  by_cases hcl : now - lc > 60
  · rw [if_pos hcl, if_pos hcl]
    simp only [cleanup_old_entries, List.filterMap_nil, lookupWindow_nil,
      setWindow_nil]
  · rw [if_neg hcl, if_neg hcl]
    simp only [lookupWindow_nil, setWindow_nil]

lemma run_calls_single (c u : Int) (times : List ℚ) :
    ∀ ts lc,
      RateLimiter.run_calls c u ⟨[((c, u), ts)], lc⟩ times =
        ((run_single (ts, lc) times).1,
          ⟨[((c, u), (run_single (ts, lc) times).2.1)],
            (run_single (ts, lc) times).2.2⟩) := by
  induction times with
  | nil => intro ts lc; rfl
  | cons now rest ih =>
    intro ts lc
    simp only [RateLimiter.run_calls, run_single, is_flood_single, ih]

lemma run_calls_from_empty (c u : Int) (times : List ℚ) (lc : ℚ) :
    (RateLimiter.run_calls c u ⟨[], lc⟩ times).1 =
      (run_single ([], lc) times).1 := by
  cases times with
  | nil => rfl
  | cons now rest =>
    simp only [RateLimiter.run_calls, run_single, is_flood_empty,
      run_calls_single]

lemma run_calls_empty_cons (c u : Int) (now : ℚ) (rest : List ℚ)
    (lc : ℚ) :
    RateLimiter.run_calls c u ⟨[], lc⟩ (now :: rest) =
      ((run_single ([], lc) (now :: rest)).1,
        ⟨[((c, u), (run_single ([], lc) (now :: rest)).2.1)],
          (run_single ([], lc) (now :: rest)).2.2⟩) := by
  simp only [RateLimiter.run_calls, run_single, is_flood_empty,
    run_calls_single]

end RateCorrespondence

/-- C3 (part B helper): one no-flood step of the even-spread scenario,
stated over the single-key view. -/
lemma flood_check_pass_closed (ts : List ℚ) (now : ℚ)
    (h60 : ∀ t ∈ ts, now - t < 60)
    (h1 : ts.filter (fun t => now - t < 1) = [])
    (hm : ts.length < 10) :
    flood_check ts now = (false, ts ++ [now]) :=
  flood_check_pass ts now h60 (by rw [h1]; norm_num) hm

/-- C3: flood behaviour of `RateLimiter.is_flood` on one `(tenant,
sender)` key.  Part A: three messages spanning at most 900 ms are not
flagged (in particular not the 3rd), a 4th within the same 1-second
window is flagged and its timestamp is not retained.  Part B: ten
messages spread evenly over 59 seconds (gap 59/9 s) are all passed, and
an 11th inside the same 60-second window is flagged. -/
theorem rate_limiter_flood_windows (c u : Int) :
    (∀ t₁ t₂ t₃ t₄ : ℚ, t₁ ≤ t₂ → t₂ ≤ t₃ → t₃ ≤ t₄ →
      t₃ - t₁ ≤ 9 / 10 → t₄ - t₁ < 1 →
      RateLimiter.run_calls c u ⟨[], t₁⟩ [t₁, t₂, t₃, t₄] =
        ([false, false, false, true],
          ⟨[((c, u), [t₁, t₂, t₃])], t₁⟩)) ∧
    (∀ t₀ : ℚ,
      (RateLimiter.run_calls c u ⟨[], t₀⟩
          [t₀, t₀ + 59 / 9, t₀ + 118 / 9, t₀ + 177 / 9, t₀ + 236 / 9,
            t₀ + 295 / 9, t₀ + 354 / 9, t₀ + 413 / 9, t₀ + 472 / 9,
            t₀ + 59, t₀ + 119 / 2]).1 =
        [false, false, false, false, false, false, false, false, false,
          false, true]) := by
  constructor
  · intro t₁ t₂ t₃ t₄ h12 h23 h34 hb h4
    have hc1 : ¬ (t₁ - t₁ > 60) := by linarith
    have hc2 : ¬ (t₂ - t₁ > 60) := by linarith
    have hc3 : ¬ (t₃ - t₁ > 60) := by linarith
    have hc4 : ¬ (t₄ - t₁ > 60) := by linarith
    have s1 : flood_check [] t₁ = (false, [t₁]) :=
      (flood_check_pass [] t₁ (by simp) (by simp) (by simp)).trans rfl
    have s2 : flood_check [t₁] t₂ = (false, [t₁, t₂]) := by
      refine (flood_check_pass [t₁] t₂ ?_ ?_ ?_).trans rfl
      · intro t ht; fin_cases ht <;> linarith
      · exact lt_of_le_of_lt (List.length_filter_le _ _) (by norm_num)
      · norm_num
    have s3 : flood_check [t₁, t₂] t₃ = (false, [t₁, t₂, t₃]) := by
      refine (flood_check_pass [t₁, t₂] t₃ ?_ ?_ ?_).trans rfl
      · intro t ht; fin_cases ht <;> linarith
      · exact lt_of_le_of_lt (List.length_filter_le _ _) (by norm_num)
      · norm_num
    have s4 : flood_check [t₁, t₂, t₃] t₄ = (true, [t₁, t₂, t₃]) := by
      refine flood_check_burst [t₁, t₂, t₃] t₄ ?_ ?_
      · intro t ht; fin_cases ht <;> linarith
      · rw [filter_time_all [t₁, t₂, t₃] t₄ 1
          (by intro t ht; fin_cases ht <;> linarith)]
        norm_num
    rw [run_calls_empty_cons]
    simp only [run_single, s1, s2, s3, s4, if_neg hc1, if_neg hc2,
      if_neg hc3, if_neg hc4]
  · intro t₀
    rw [run_calls_from_empty]
    have hc0 : ¬ (t₀ - t₀ > 60) := by linarith
    have hc : ∀ d : ℚ, 0 ≤ d → d ≤ 119 / 2 → ¬ (t₀ + d - t₀ > 60) := by
      intro d h0 h1 h2; linarith
    have s1 : flood_check [] t₀ = (false, [t₀]) :=
      (flood_check_pass [] t₀ (by simp) (by simp) (by simp)).trans rfl
    have s2 : flood_check [t₀] (t₀ + 59 / 9) =
        (false, [t₀, t₀ + 59 / 9]) := by
      refine (flood_check_pass_closed _ _ ?_ ?_ (by norm_num)).trans rfl
      · intro t ht; fin_cases ht <;> linarith
      · exact filter_time_none _ _ _ (by intro t ht; fin_cases ht <;> linarith)
    have s3 : flood_check [t₀, t₀ + 59 / 9] (t₀ + 118 / 9) =
        (false, [t₀, t₀ + 59 / 9, t₀ + 118 / 9]) := by
      refine (flood_check_pass_closed _ _ ?_ ?_ (by norm_num)).trans rfl
      · intro t ht; fin_cases ht <;> linarith
      · exact filter_time_none _ _ _ (by intro t ht; fin_cases ht <;> linarith)
    have s4 : flood_check [t₀, t₀ + 59 / 9, t₀ + 118 / 9] (t₀ + 177 / 9) =
        (false, [t₀, t₀ + 59 / 9, t₀ + 118 / 9, t₀ + 177 / 9]) := by
      refine (flood_check_pass_closed _ _ ?_ ?_ (by norm_num)).trans rfl
      · intro t ht; fin_cases ht <;> linarith
      · exact filter_time_none _ _ _ (by intro t ht; fin_cases ht <;> linarith)
    have s5 : flood_check [t₀, t₀ + 59 / 9, t₀ + 118 / 9, t₀ + 177 / 9]
        (t₀ + 236 / 9) =
        (false, [t₀, t₀ + 59 / 9, t₀ + 118 / 9, t₀ + 177 / 9,
          t₀ + 236 / 9]) := by
      refine (flood_check_pass_closed _ _ ?_ ?_ (by norm_num)).trans rfl
      · intro t ht; fin_cases ht <;> linarith
      · exact filter_time_none _ _ _ (by intro t ht; fin_cases ht <;> linarith)
    have s6 : flood_check [t₀, t₀ + 59 / 9, t₀ + 118 / 9, t₀ + 177 / 9,
        t₀ + 236 / 9] (t₀ + 295 / 9) =
        (false, [t₀, t₀ + 59 / 9, t₀ + 118 / 9, t₀ + 177 / 9,
          t₀ + 236 / 9, t₀ + 295 / 9]) := by
      refine (flood_check_pass_closed _ _ ?_ ?_ (by norm_num)).trans rfl
      · intro t ht; fin_cases ht <;> linarith
      · exact filter_time_none _ _ _ (by intro t ht; fin_cases ht <;> linarith)
    have s7 : flood_check [t₀, t₀ + 59 / 9, t₀ + 118 / 9, t₀ + 177 / 9,
        t₀ + 236 / 9, t₀ + 295 / 9] (t₀ + 354 / 9) =
        (false, [t₀, t₀ + 59 / 9, t₀ + 118 / 9, t₀ + 177 / 9,
          t₀ + 236 / 9, t₀ + 295 / 9, t₀ + 354 / 9]) := by
      refine (flood_check_pass_closed _ _ ?_ ?_ (by norm_num)).trans rfl
      · intro t ht; fin_cases ht <;> linarith
      · exact filter_time_none _ _ _ (by intro t ht; fin_cases ht <;> linarith)
    have s8 : flood_check [t₀, t₀ + 59 / 9, t₀ + 118 / 9, t₀ + 177 / 9,
        t₀ + 236 / 9, t₀ + 295 / 9, t₀ + 354 / 9] (t₀ + 413 / 9) =
        (false, [t₀, t₀ + 59 / 9, t₀ + 118 / 9, t₀ + 177 / 9,
          t₀ + 236 / 9, t₀ + 295 / 9, t₀ + 354 / 9, t₀ + 413 / 9]) := by
      refine (flood_check_pass_closed _ _ ?_ ?_ (by norm_num)).trans rfl
      · intro t ht; fin_cases ht <;> linarith
      · exact filter_time_none _ _ _ (by intro t ht; fin_cases ht <;> linarith)
    have s9 : flood_check [t₀, t₀ + 59 / 9, t₀ + 118 / 9, t₀ + 177 / 9,
        t₀ + 236 / 9, t₀ + 295 / 9, t₀ + 354 / 9, t₀ + 413 / 9]
        (t₀ + 472 / 9) =
        (false, [t₀, t₀ + 59 / 9, t₀ + 118 / 9, t₀ + 177 / 9,
          t₀ + 236 / 9, t₀ + 295 / 9, t₀ + 354 / 9, t₀ + 413 / 9,
          t₀ + 472 / 9]) := by
      refine (flood_check_pass_closed _ _ ?_ ?_ (by norm_num)).trans rfl
      · intro t ht; fin_cases ht <;> linarith
      · exact filter_time_none _ _ _ (by intro t ht; fin_cases ht <;> linarith)
    have s10 : flood_check [t₀, t₀ + 59 / 9, t₀ + 118 / 9, t₀ + 177 / 9,
        t₀ + 236 / 9, t₀ + 295 / 9, t₀ + 354 / 9, t₀ + 413 / 9,
        t₀ + 472 / 9] (t₀ + 59) =
        (false, [t₀, t₀ + 59 / 9, t₀ + 118 / 9, t₀ + 177 / 9,
          t₀ + 236 / 9, t₀ + 295 / 9, t₀ + 354 / 9, t₀ + 413 / 9,
          t₀ + 472 / 9, t₀ + 59]) := by
      refine (flood_check_pass_closed _ _ ?_ ?_ (by norm_num)).trans rfl
      · intro t ht; fin_cases ht <;> linarith
      · exact filter_time_none _ _ _ (by intro t ht; fin_cases ht <;> linarith)
    have s11 : flood_check [t₀, t₀ + 59 / 9, t₀ + 118 / 9, t₀ + 177 / 9,
        t₀ + 236 / 9, t₀ + 295 / 9, t₀ + 354 / 9, t₀ + 413 / 9,
        t₀ + 472 / 9, t₀ + 59] (t₀ + 119 / 2) =
        (true, [t₀, t₀ + 59 / 9, t₀ + 118 / 9, t₀ + 177 / 9,
          t₀ + 236 / 9, t₀ + 295 / 9, t₀ + 354 / 9, t₀ + 413 / 9,
          t₀ + 472 / 9, t₀ + 59]) := by
      refine flood_check_minute _ _ ?_ ?_ (by norm_num)
      · intro t ht; fin_cases ht <;> linarith
      · have hsplit :
            ([t₀, t₀ + 59 / 9, t₀ + 118 / 9, t₀ + 177 / 9, t₀ + 236 / 9,
              t₀ + 295 / 9, t₀ + 354 / 9, t₀ + 413 / 9, t₀ + 472 / 9,
              t₀ + 59] : List ℚ) =
              [t₀, t₀ + 59 / 9, t₀ + 118 / 9, t₀ + 177 / 9, t₀ + 236 / 9,
                t₀ + 295 / 9, t₀ + 354 / 9, t₀ + 413 / 9, t₀ + 472 / 9] ++
                [t₀ + 59] := rfl
        rw [hsplit, List.filter_append,
          filter_time_none _ _ _ (by intro t ht; fin_cases ht <;> linarith),
          List.nil_append]
        exact lt_of_le_of_lt (List.length_filter_le _ _) (by norm_num)
    simp only [run_single, s1, s2, s3, s4, s5, s6, s7, s8, s9, s10, s11,
      if_neg hc0,
      if_neg (hc (59 / 9) (by norm_num) (by norm_num)),
      if_neg (hc (118 / 9) (by norm_num) (by norm_num)),
      if_neg (hc (177 / 9) (by norm_num) (by norm_num)),
      if_neg (hc (236 / 9) (by norm_num) (by norm_num)),
      if_neg (hc (295 / 9) (by norm_num) (by norm_num)),
      if_neg (hc (354 / 9) (by norm_num) (by norm_num)),
      if_neg (hc (413 / 9) (by norm_num) (by norm_num)),
      if_neg (hc (472 / 9) (by norm_num) (by norm_num)),
      if_neg (hc 59 (by norm_num) (by norm_num)),
      if_neg (hc (119 / 2) (by norm_num) (by norm_num))]

/-- Witness for C3 at concrete call times. -/
theorem rate_limiter_flood_windows_witness :
    RateLimiter.run_calls 1 2 ⟨[], 0⟩ [0, 45 / 100, 9 / 10, 95 / 100] =
      ([false, false, false, true],
        ⟨[((1, 2), [0, 45 / 100, 9 / 10])], 0⟩) :=
  (rate_limiter_flood_windows 1 2).1 0 (45 / 100) (9 / 10) (95 / 100)
    (by norm_num) (by norm_num) (by norm_num) (by norm_num) (by norm_num)

/-! ## NotificationBuffer (`src/bot/services/notifications.py`) -/

/-- `PendingNotification` dataclass from
`src/bot/services/notifications.py`. -/
structure PendingNotification where
  chat_id : Int
  message_id : Int
  user_id : Int
  username : String
  text : String
  meta_score : ℚ
  action : String
  created_at : ℚ
  deriving DecidableEq, Repr

/-- `NotificationBuffer` from `src/bot/services/notifications.py`:
per-owner pending lists plus per-owner last-sent timestamps. -/
structure NotificationBuffer where
  batch_threshold : Nat
  window_seconds : ℚ
  buffer : List (Int × List PendingNotification)
  last_sent : List (Int × ℚ)
  deriving DecidableEq, Repr

/-- Dict read `self._buffer.get(owner_id, [])`. -/
def lookupBuf (b : List (Int × List PendingNotification)) (owner : Int) :
    List PendingNotification :=
  ((b.find? (fun p => p.1 = owner)).map Prod.snd).getD []

/-- Dict write `self._buffer[owner_id] = v` (replace or insert). -/
def setBuf (b : List (Int × List PendingNotification)) (owner : Int)
    (v : List PendingNotification) :
    List (Int × List PendingNotification) :=
  if b.any (fun p => p.1 = owner) then
    b.map (fun p => if p.1 = owner then (owner, v) else p)
  else b ++ [(owner, v)]

/-- `NotificationBuffer.add`: append the alert to the owner's pending
list (`defaultdict(list)` semantics). -/
def NotificationBuffer.add (nb : NotificationBuffer) (owner : Int)
    (n : PendingNotification) : NotificationBuffer :=
  { nb with buffer := setBuf nb.buffer owner (lookupBuf nb.buffer owner ++ [n]) }

/-- `NotificationBuffer.should_send_batch`: at least `batch_threshold`
pending alerts. -/
def NotificationBuffer.should_send_batch (nb : NotificationBuffer)
    (owner : Int) : Bool :=
  (lookupBuf nb.buffer owner).length ≥ nb.batch_threshold

/-- `NotificationBuffer.should_send_individual`: at least
`window_seconds` since the owner's last flush (`last_sent` defaults to
0). -/
def NotificationBuffer.should_send_individual (nb : NotificationBuffer)
    (owner : Int) (now : ℚ) : Bool :=
  now - (((nb.last_sent.find? (fun p => p.1 = owner)).map Prod.snd).getD 0) ≥
    nb.window_seconds

/-- `NotificationBuffer.get_pending`: return the owner's pending alerts
and reset that owner's buffer to the empty list. -/
def NotificationBuffer.get_pending (nb : NotificationBuffer)
    (owner : Int) : List PendingNotification × NotificationBuffer :=
  (lookupBuf nb.buffer owner, { nb with buffer := setBuf nb.buffer owner [] })

/-- `NotificationBuffer.mark_sent`. -/
def NotificationBuffer.mark_sent (nb : NotificationBuffer) (owner : Int)
    (now : ℚ) : NotificationBuffer :=
  { nb with last_sent :=
      if nb.last_sent.any (fun p => p.1 = owner) then
        nb.last_sent.map (fun p => if p.1 = owner then (owner, now) else p)
      else nb.last_sent ++ [(owner, now)] }

/-- Iterated `add` for one owner, in list order. -/
def NotificationBuffer.add_all (nb : NotificationBuffer) (owner : Int)
    (ns : List PendingNotification) : NotificationBuffer :=
  ns.foldl (fun b n => b.add owner n) nb

section BufferLemmas

lemma lookupBuf_map_replace (b : List (Int × List PendingNotification))
    (owner : Int) (v : List PendingNotification)
    (h : b.any (fun p => p.1 = owner) = true) :
    lookupBuf (b.map (fun p => if p.1 = owner then (owner, v) else p))
      owner = v := by
  induction b with
  | nil => simp at h
  | cons p b ih =>
    by_cases hp : p.1 = owner
    · simp [lookupBuf, List.find?, hp]
    · simp only [List.any_cons, Bool.or_eq_true, decide_eq_true_eq] at h
      have hb : b.any (fun p => p.1 = owner) = true := by
        rcases h with h | h
        · exact absurd h hp
        · exact h
      simp only [List.map_cons, if_neg hp]
      have := ih hb
      simpa [lookupBuf, List.find?, hp] using this

lemma lookupBuf_append_new (b : List (Int × List PendingNotification))
    (owner : Int) (v : List PendingNotification)
    (h : b.any (fun p => p.1 = owner) = false) :
    lookupBuf (b ++ [(owner, v)]) owner = v := by
  induction b with
  | nil => simp [lookupBuf, List.find?]
  | cons p b ih =>
    simp only [List.any_cons, Bool.or_eq_false_iff, decide_eq_false_iff_not]
      at h
    simp only [List.cons_append]
    have := ih h.2
    simpa [lookupBuf, List.find?, h.1] using this

lemma lookupBuf_setBuf (b : List (Int × List PendingNotification))
    (owner : Int) (v : List PendingNotification) :
    lookupBuf (setBuf b owner v) owner = v := by
  unfold setBuf
  by_cases h : b.any (fun p => p.1 = owner)
  · rw [if_pos h]
    exact lookupBuf_map_replace b owner v h
  · rw [if_neg h]
    exact lookupBuf_append_new b owner v (Bool.eq_false_iff.mpr h)

lemma add_buffer_eq (nb : NotificationBuffer) (owner : Int)
    (n : PendingNotification) :
    lookupBuf (nb.add owner n).buffer owner =
      lookupBuf nb.buffer owner ++ [n] := by
  unfold NotificationBuffer.add
  exact lookupBuf_setBuf _ _ _

lemma add_all_buffer_eq (owner : Int) (ns : List PendingNotification) :
    ∀ nb : NotificationBuffer,
      lookupBuf (nb.add_all owner ns).buffer owner =
        lookupBuf nb.buffer owner ++ ns := by
  induction ns with
  | nil => intro nb; simp [NotificationBuffer.add_all]
  | cons n ns ih =>
    intro nb
    unfold NotificationBuffer.add_all at *
    simp only [List.foldl_cons]
    rw [ih, add_buffer_eq, List.append_assoc]
    rfl

lemma add_all_threshold (owner : Int) (ns : List PendingNotification) :
    ∀ nb : NotificationBuffer,
      (nb.add_all owner ns).batch_threshold = nb.batch_threshold := by
  induction ns with
  | nil => intro nb; rfl
  | cons n ns ih =>
    intro nb
    unfold NotificationBuffer.add_all at *
    simp only [List.foldl_cons]
    rw [ih]
    rfl

end BufferLemmas

/-- C8: starting from an owner's empty buffer with the default batch
threshold 10, ten `add` calls make `should_send_batch` true;
`get_pending` then returns exactly those ten alerts in insertion (FIFO)
order and leaves the owner's buffer empty; an `add` immediately after
the drain yields a buffer holding exactly that single alert. -/
theorem notification_batch_cycle (nb : NotificationBuffer) (owner : Int)
    (ns : List PendingNotification) (n : PendingNotification)
    (hthr : nb.batch_threshold = 10)
    (hempty : lookupBuf nb.buffer owner = [])
    (hlen : ns.length = 10) :
    (nb.add_all owner ns).should_send_batch owner = true ∧
      ((nb.add_all owner ns).get_pending owner).1 = ns ∧
      lookupBuf ((nb.add_all owner ns).get_pending owner).2.buffer owner
        = [] ∧
      lookupBuf
        ((((nb.add_all owner ns).get_pending owner).2.add owner n)).buffer
        owner = [n] := by
  have hbuf : lookupBuf (nb.add_all owner ns).buffer owner = ns := by
    rw [add_all_buffer_eq, hempty, List.nil_append]
  refine ⟨?_, ?_, ?_, ?_⟩
  · unfold NotificationBuffer.should_send_batch
    rw [hbuf, hlen, add_all_threshold, hthr]
    simp
  · unfold NotificationBuffer.get_pending
    exact hbuf
  · unfold NotificationBuffer.get_pending
    exact lookupBuf_setBuf _ _ _
  · rw [add_buffer_eq]
    unfold NotificationBuffer.get_pending
    rw [lookupBuf_setBuf, List.nil_append]

/-- Witness for C8 at a concrete buffer, owner and alert batch. -/
theorem notification_batch_cycle_witness :
    (NotificationBuffer.add_all ⟨10, 300, [], []⟩ 5
          (List.replicate 10
            ⟨1, 2, 3, "u", "spam", 1 / 2, "deleted", 0⟩)).should_send_batch
        5 = true ∧
      ((NotificationBuffer.add_all ⟨10, 300, [], []⟩ 5
            (List.replicate 10
              ⟨1, 2, 3, "u", "spam", 1 / 2, "deleted", 0⟩)).get_pending
          5).1 =
        List.replicate 10 ⟨1, 2, 3, "u", "spam", 1 / 2, "deleted", 0⟩ ∧
      lookupBuf
          ((NotificationBuffer.add_all ⟨10, 300, [], []⟩ 5
                (List.replicate 10
                  ⟨1, 2, 3, "u", "spam", 1 / 2, "deleted", 0⟩)).get_pending
              5).2.buffer 5 = [] ∧
      lookupBuf
          (((NotificationBuffer.add_all ⟨10, 300, [], []⟩ 5
                    (List.replicate 10
                      ⟨1, 2, 3, "u", "spam", 1 / 2, "deleted", 0⟩)).get_pending
                5).2.add 5
              ⟨1, 9, 3, "u", "more", 3 / 4, "deleted", 1⟩).buffer 5 =
        [⟨1, 9, 3, "u", "more", 3 / 4, "deleted", 1⟩] :=
  notification_batch_cycle ⟨10, 300, [], []⟩ 5
    (List.replicate 10 ⟨1, 2, 3, "u", "spam", 1 / 2, "deleted", 0⟩)
    ⟨1, 9, 3, "u", "more", 3 / 4, "deleted", 1⟩ rfl rfl rfl

/-! ## Pairing handshake (`src/bot/handlers/chat_commands.py`,
`cmd_link_moderator`) -/

/-- One entry of `context.bot_data["moderator_tokens"]`: the dict value
`{"chat_id": ..., "owner_id": ..., "expires_at": ...}`. -/
structure TokenData where
  chat_id : Int
  owner_id : Int
  expires_at : ℚ
  deriving DecidableEq, Repr

/-- Outcome of the token-validation part of `cmd_link_moderator`, one
constructor per user-facing reply path. -/
inductive LinkResult where
  | tokenNotFound
  | tokenExpired
  | accessDenied
  | botNotAdmin
  | configMissing
  | linked (chat_id : Int)
  deriving DecidableEq, Repr

/-- Dict read `tokens[token]` guarded by `token not in tokens`. -/
def lookupTok (tokens : List (String × TokenData)) (token : String) :
    Option TokenData :=
  (tokens.find? (fun p => p.1 = token)).map Prod.snd

/-- Dict delete `del tokens[token]`. -/
def eraseTok (tokens : List (String × TokenData)) (token : String) :
    List (String × TokenData) :=
  tokens.filter (fun p => p.1 ≠ token)

/-- Config-store read `storage.chat_configs.get_by_chat_id`. -/
def lookupCfg (configs : List (Int × ChatConfig)) (chat_id : Int) :
    Option ChatConfig :=
  (configs.find? (fun p => p.1 = chat_id)).map Prod.snd

/-- Config-store write
`storage.chat_configs.update(chat_id, moderator_channel_id=...)`. -/
def setModeratorChannel (configs : List (Int × ChatConfig)) (chat_id : Int)
    (group_id : Int) : List (Int × ChatConfig) :=
  configs.map (fun p =>
    if p.1 = chat_id then
      (p.1, { p.2 with moderator_channel_id := some group_id })
    else p)

/-- Token-validation core of `cmd_link_moderator`
(src/bot/handlers/chat_commands.py, after the group-only and argument
checks): unknown token → not-found; `now > expires_at` → expired and the
token is deleted; wrong claimant → denied (token kept); missing bot admin
rights (or a failed rights check) → abort (token kept); missing chat
config → abort and delete the token; otherwise attach the moderator
group to the bound chat's config, delete the token, and report the bound
chat id. -/
def cmd_link_moderator (tokens : List (String × TokenData))
    (configs : List (Int × ChatConfig)) (token : String) (user_id : Int)
    (moderator_group_id : Int) (now : ℚ) (bot_is_admin : Bool) :
    LinkResult × List (String × TokenData) × List (Int × ChatConfig) :=
  match lookupTok tokens token with
  | none => (LinkResult.tokenNotFound, tokens, configs)
  | some td =>
    if now > td.expires_at then
      (LinkResult.tokenExpired, eraseTok tokens token, configs)
    else if td.owner_id ≠ user_id then
      (LinkResult.accessDenied, tokens, configs)
    else if ¬ bot_is_admin then
      (LinkResult.botNotAdmin, tokens, configs)
    else
      match lookupCfg configs td.chat_id with
      | none => (LinkResult.configMissing, eraseTok tokens token, configs)
      | some _ =>
        (LinkResult.linked td.chat_id, eraseTok tokens token,
          setModeratorChannel configs td.chat_id moderator_group_id)

section TokenLemmas

lemma lookupTok_erase (tokens : List (String × TokenData))
    (token : String) :
    lookupTok (eraseTok tokens token) token = none := by
  induction tokens with
  | nil => rfl
  | cons p ts ih =>
    by_cases hp : p.1 = token
    · simp only [eraseTok, List.filter_cons] at *
      rw [if_neg (by simp [hp])]
      exact ih
    · simp only [eraseTok, List.filter_cons] at *
      rw [if_pos (by simp [hp])]
      simp only [lookupTok, List.find?, hp, decide_False]
      exact ih

lemma lookupCfg_setModeratorChannel (configs : List (Int × ChatConfig))
    (chat_id group_id : Int) (cfg : ChatConfig)
    (h : lookupCfg configs chat_id = some cfg) :
    lookupCfg (setModeratorChannel configs chat_id group_id) chat_id =
      some { cfg with moderator_channel_id := some group_id } := by
  induction configs with
  | nil => simp [lookupCfg] at h
  | cons p cs ih =>
    obtain ⟨k, c⟩ := p
    by_cases hp : k = chat_id
    · subst hp
      have hc : c = cfg := by simpa [lookupCfg, List.find?] using h
      subst hc
      simp [setModeratorChannel, lookupCfg, List.find?]
    · have h' : lookupCfg cs chat_id = some cfg := by
        simpa [lookupCfg, List.find?, hp] using h
      have hrec := ih h'
      simp only [setModeratorChannel, List.map_cons] at hrec ⊢
      rw [if_neg (by simpa using hp)]
      simpa [lookupCfg, List.find?, hp] using hrec

lemma cmd_link_success (tokens : List (String × TokenData))
    (configs : List (Int × ChatConfig)) (token : String) (td : TokenData)
    (cfg : ChatConfig) (user_id moderator_group_id : Int) (now : ℚ)
    (bot_is_admin : Bool)
    (hfound : lookupTok tokens token = some td)
    (hexp : ¬ now > td.expires_at)
    (howner : td.owner_id = user_id)
    (hb : bot_is_admin = true)
    (hcfg : lookupCfg configs td.chat_id = some cfg) :
    cmd_link_moderator tokens configs token user_id moderator_group_id
        now bot_is_admin =
      (LinkResult.linked td.chat_id, eraseTok tokens token,
        setModeratorChannel configs td.chat_id moderator_group_id) := by
  unfold cmd_link_moderator
  rw [hfound]
  dsimp only
  rw [if_neg hexp, if_neg (by simp [howner]), if_neg (by simp [hb]), hcfg]

end TokenLemmas

/-- C4 (amended): the redemption expiry boundary is inclusive of
`expires_at` itself: `cmd_link_moderator` reports an expired token (and
deletes it) exactly when `now > expires_at` strictly, so at
`now = expires_at` the token is NOT treated as expired. -/
theorem redeem_expiry_boundary (tokens : List (String × TokenData))
    (configs : List (Int × ChatConfig)) (token : String)
    (td : TokenData) (user_id moderator_group_id : Int) (now : ℚ)
    (bot_is_admin : Bool)
    (hfound : lookupTok tokens token = some td) :
    (now > td.expires_at →
      cmd_link_moderator tokens configs token user_id moderator_group_id
          now bot_is_admin =
        (LinkResult.tokenExpired, eraseTok tokens token, configs)) ∧
    (now ≤ td.expires_at →
      (cmd_link_moderator tokens configs token user_id moderator_group_id
          now bot_is_admin).1 ≠ LinkResult.tokenExpired) := by
  constructor
  · intro hexp
    unfold cmd_link_moderator
    rw [hfound]
    dsimp only
    rw [if_pos hexp]
  · intro hle
    unfold cmd_link_moderator
    rw [hfound]
    dsimp only
    rw [if_neg (not_lt.mpr hle)]
    by_cases ho : td.owner_id ≠ user_id
    · rw [if_pos ho]; simp
    · rw [if_neg ho]
      by_cases hb : ¬ bot_is_admin = true
      · rw [if_pos hb]; simp
      · rw [if_neg hb]
        cases lookupCfg configs td.chat_id <;> simp

/-- C4 counterexample: a token redeemed at exactly its `expires_at` is
not refused as expired — with the right claimant it succeeds. -/
theorem redeem_at_expiry_not_expired :
    (cmd_link_moderator [("T", ⟨42, 7, 100⟩)]
          [(42, ⟨42, none, 7, "delete_only", 1, 1, true, none, none⟩)]
          "T" 7 99 100 true).1 = LinkResult.linked 42 ∧
      (cmd_link_moderator [("T", ⟨42, 7, 100⟩)]
          [(42, ⟨42, none, 7, "delete_only", 1, 1, true, none, none⟩)]
          "T" 7 99 100 true).1 ≠ LinkResult.tokenExpired := by
  have hrun : cmd_link_moderator [("T", ⟨42, 7, 100⟩)]
      [(42, ⟨42, none, 7, "delete_only", 1, 1, true, none, none⟩)]
      "T" 7 99 100 true =
      (LinkResult.linked 42,
        eraseTok [("T", ⟨42, 7, 100⟩)] "T",
        setModeratorChannel
          [(42, ⟨42, none, 7, "delete_only", 1, 1, true, none, none⟩)]
          42 99) :=
    cmd_link_success _ _ _ ⟨42, 7, 100⟩
      ⟨42, none, 7, "delete_only", 1, 1, true, none, none⟩ _ _ _ _
      (by simp [lookupTok, List.find?]) (by norm_num) rfl rfl
      (by simp [lookupCfg, List.find?])
  rw [hrun]
  exact ⟨rfl, by simp⟩

/-- Witness for C4 (amended theorem) at a concrete store. -/
theorem redeem_expiry_boundary_witness :
    ((100 : ℚ) > 99 →
      cmd_link_moderator [("T", ⟨42, 7, 99⟩)] [] "T" 7 5 100 true =
        (LinkResult.tokenExpired, eraseTok [("T", ⟨42, 7, 99⟩)] "T", [])) ∧
    ((100 : ℚ) ≤ 99 →
      (cmd_link_moderator [("T", ⟨42, 7, 99⟩)] [] "T" 7 5 100 true).1 ≠
        LinkResult.tokenExpired) :=
  redeem_expiry_boundary [("T", ⟨42, 7, 99⟩)] [] "T" ⟨42, 7, 99⟩ 7 5 100
    true (by simp [lookupTok, List.find?])

/-- C5: pairing tokens are single-use.  A successful redeem removes the
token from the store and attaches the moderator group to the bound
chat's config; afterwards the token no longer resolves, so any second
redeem of the same token value reports it as not found. -/
theorem redeem_single_use (tokens : List (String × TokenData))
    (configs : List (Int × ChatConfig)) (token : String) (td : TokenData)
    (cfg : ChatConfig) (user_id moderator_group_id : Int) (now : ℚ)
    (hfound : lookupTok tokens token = some td)
    (hexp : ¬ now > td.expires_at)
    (howner : td.owner_id = user_id)
    (hcfg : lookupCfg configs td.chat_id = some cfg) :
    cmd_link_moderator tokens configs token user_id moderator_group_id
        now true =
      (LinkResult.linked td.chat_id, eraseTok tokens token,
        setModeratorChannel configs td.chat_id moderator_group_id) ∧
    lookupTok (eraseTok tokens token) token = none ∧
    (∀ (configs₂ : List (Int × ChatConfig)) (user₂ group₂ : Int)
        (now₂ : ℚ) (admin₂ : Bool),
      (cmd_link_moderator (eraseTok tokens token) configs₂ token user₂
          group₂ now₂ admin₂).1 = LinkResult.tokenNotFound) ∧
    lookupCfg (setModeratorChannel configs td.chat_id moderator_group_id)
        td.chat_id =
      some { cfg with moderator_channel_id := some moderator_group_id } := by
  refine ⟨cmd_link_success tokens configs token td cfg user_id
      moderator_group_id now true hfound hexp howner rfl hcfg,
    lookupTok_erase tokens token, ?_, ?_⟩
  · intro configs₂ user₂ group₂ now₂ admin₂
    unfold cmd_link_moderator
    rw [lookupTok_erase]
  · exact lookupCfg_setModeratorChannel configs td.chat_id
      moderator_group_id cfg hcfg

/-- Witness for C5 at a concrete token store and config store. -/
theorem redeem_single_use_witness :
    cmd_link_moderator [("T", ⟨42, 7, 100⟩)]
        [(42, ⟨42, none, 7, "delete_only", 1, 1, true, none, none⟩)]
        "T" 7 99 50 true =
      (LinkResult.linked 42, eraseTok [("T", ⟨42, 7, 100⟩)] "T",
        setModeratorChannel
          [(42, ⟨42, none, 7, "delete_only", 1, 1, true, none, none⟩)]
          42 99) ∧
    lookupTok (eraseTok [("T", ⟨42, 7, 100⟩)] "T") "T" = none ∧
    (∀ (configs₂ : List (Int × ChatConfig)) (user₂ group₂ : Int)
        (now₂ : ℚ) (admin₂ : Bool),
      (cmd_link_moderator (eraseTok [("T", ⟨42, 7, 100⟩)] "T") configs₂
          "T" user₂ group₂ now₂ admin₂).1 = LinkResult.tokenNotFound) ∧
    lookupCfg
        (setModeratorChannel
          [(42, ⟨42, none, 7, "delete_only", 1, 1, true, none, none⟩)]
          42 99) 42 =
      some ⟨42, none, 7, "delete_only", 1, 1, true, none, some 99⟩ :=
  redeem_single_use [("T", ⟨42, 7, 100⟩)]
    [(42, ⟨42, none, 7, "delete_only", 1, 1, true, none, none⟩)]
    "T" ⟨42, 7, 100⟩ ⟨42, none, 7, "delete_only", 1, 1, true, none, none⟩
    7 99 50 (by simp [lookupTok, List.find?]) (by norm_num) rfl
    (by simp [lookupCfg, List.find?])

/-- C10: redeeming with a claimant other than the owner bound to the
token is refused with the access-denied reply and leaves both the token
store and the config store unchanged; the rightful owner can still
redeem the same token later (while it has not expired). -/
theorem redeem_wrong_claimant (tokens : List (String × TokenData))
    (configs : List (Int × ChatConfig)) (token : String) (td : TokenData)
    (user_id moderator_group_id : Int) (now : ℚ) (bot_is_admin : Bool)
    (hfound : lookupTok tokens token = some td)
    (hexp : ¬ now > td.expires_at)
    (howner : td.owner_id ≠ user_id) :
    cmd_link_moderator tokens configs token user_id moderator_group_id
        now bot_is_admin =
      (LinkResult.accessDenied, tokens, configs) ∧
    (∀ (cfg : ChatConfig) (group₂ : Int) (now₂ : ℚ),
      ¬ now₂ > td.expires_at →
      lookupCfg configs td.chat_id = some cfg →
      cmd_link_moderator tokens configs token td.owner_id group₂ now₂
          true =
        (LinkResult.linked td.chat_id, eraseTok tokens token,
          setModeratorChannel configs td.chat_id group₂)) := by
  constructor
  · unfold cmd_link_moderator
    rw [hfound]
    dsimp only
    rw [if_neg hexp, if_pos howner]
  · intro cfg group₂ now₂ hexp₂ hcfg
    exact cmd_link_success tokens configs token td cfg td.owner_id group₂
      now₂ true hfound hexp₂ rfl rfl hcfg

/-- Witness for C10 at a concrete store: claimant 8 is refused, owner 7
still succeeds. -/
theorem redeem_wrong_claimant_witness :
    cmd_link_moderator [("T", ⟨42, 7, 100⟩)]
        [(42, ⟨42, none, 7, "delete_only", 1, 1, true, none, none⟩)]
        "T" 8 99 50 true =
      (LinkResult.accessDenied, [("T", ⟨42, 7, 100⟩)],
        [(42, ⟨42, none, 7, "delete_only", 1, 1, true, none, none⟩)]) ∧
    (∀ (cfg : ChatConfig) (group₂ : Int) (now₂ : ℚ),
      ¬ now₂ > (100 : ℚ) →
      lookupCfg
          [(42, ⟨42, none, 7, "delete_only", 1, 1, true, none, none⟩)]
          42 = some cfg →
      cmd_link_moderator [("T", ⟨42, 7, 100⟩)]
          [(42, ⟨42, none, 7, "delete_only", 1, 1, true, none, none⟩)]
          "T" 7 group₂ now₂ true =
        (LinkResult.linked 42, eraseTok [("T", ⟨42, 7, 100⟩)] "T",
          setModeratorChannel
            [(42, ⟨42, none, 7, "delete_only", 1, 1, true, none, none⟩)]
            42 group₂)) :=
  redeem_wrong_claimant [("T", ⟨42, 7, 100⟩)]
    [(42, ⟨42, none, 7, "delete_only", 1, 1, true, none, none⟩)]
    "T" ⟨42, 7, 100⟩ 8 99 50 true (by simp [lookupTok, List.find?])
    (by norm_num) (by norm_num)

/-! ## Moderation pipeline (`src/bot/handlers/moderation.py`,
`on_message`) -/

/-- `Action.value` of the `str`-valued enum in `src/core/types.py`. -/
def Action.value : Action → String
  | Action.approve => "approve"
  | Action.notify => "notify"
  | Action.delete => "delete"
  | Action.kick => "kick"

/-- The sender of a Telegram message: `msg.from_user` with its optional
`@username`. -/
structure UserInfo where
  id : Int
  username : Option String
  deriving DecidableEq, Repr

/-- The fields of an inbound Telegram message used by `on_message`.
`text = ""` models both an absent and an empty text (both falsy in the
source's `not msg.text`). -/
structure IncomingMessage where
  chat_id : Int
  message_id : Int
  chat_type : String
  from_user : Option UserInfo
  text : String
  deriving DecidableEq, Repr

/-- Externally visible calls requested by the pipeline (Telegram
transport and storage); modelled as emitted effects, in call order.
Transport calls are modelled as succeeding (a failed call only skips
counters in the source). -/
inductive Effect where
  | upsertUser (user_id : Int) (username : Option String)
  | deleteMessage (chat_id message_id : Int)
  | banChatMember (chat_id user_id : Int)
  | unbanChatMember (chat_id user_id : Int)
  | recordEvent (chat_id message_id user_id : Int) (action : String)
      (confidence : ℚ)
  | incrementProcessed (chat_id : Int)
  | incrementSpamStats (chat_id : Int)
      (spam_detected messages_deleted users_banned : Nat)
  | sendIndividualNotification (owner_id chat_id user_id : Int)
      (text : String) (meta_score : ℚ) (action : String)
      (message_id : Int)
  deriving DecidableEq, Repr

/-- The mutable process-wide services `on_message` touches: the
rate-limiter windows and the (global, never written by the pipeline)
notification buffer. -/
structure PipelineState where
  rate : RateState
  notif : NotificationBuffer
  deriving DecidableEq, Repr

/-- Where `on_message` terminated. -/
inductive Outcome where
  | noMessage
  | privateChat
  | notRegistered
  | inactive
  | whitelisted
  | floodDropped
  | processed (a : Action)
  deriving DecidableEq, Repr

/-- The whitelist guard of `on_message` step 2:
`if chat_config.whitelist and msg.from_user.username:` followed by the
membership test — the early return fires only when the whitelist is
truthy (present and non-empty), the username is truthy (present and
non-empty) and the username is listed. -/
def in_whitelist (cfg : ChatConfig) (user : UserInfo) : Bool :=
  match cfg.whitelist, user.username with
  | some wl, some u => wl ≠ [] ∧ u ≠ "" ∧ u ∈ wl
  | _, _ => false

/-- The `action_str` map of `on_message` step 9 (`dict.get` with default
`"unknown"`). -/
def action_str : Action → String
  | Action.delete => "deleted"
  | Action.kick => "deleted_and_banned"
  | Action.notify => "detected_only"
  | Action.approve => "unknown"

/-- Per-verdict transport effects of `on_message` step 8: delete the
message, and for `kick` also soft-ban (ban then unban) the sender. -/
def verdict_effects (msg : IncomingMessage) (user : UserInfo) :
    Action → List Effect
  | Action.delete => [Effect.deleteMessage msg.chat_id msg.message_id]
  | Action.kick =>
      [Effect.deleteMessage msg.chat_id msg.message_id,
        Effect.banChatMember msg.chat_id user.id,
        Effect.unbanChatMember msg.chat_id user.id]
  | _ => []

/-- The `(spam_detected, messages_deleted, users_banned)` counters of
`on_message` step 8. -/
def spam_counts : Action → Nat × Nat × Nat
  | Action.delete => (1, 1, 0)
  | Action.kick => (1, 1, 1)
  | Action.notify => (1, 0, 0)
  | Action.approve => (0, 0, 0)

/-- `on_message` from `src/bot/handlers/moderation.py`: the per-message
state machine.  `cfgs` is the chat-config store read, `analysis` the
result the filter coordinator returns for the message text (the
estimators are external black boxes). -/
def on_message (cfgs : Int → Option ChatConfig) (st : PipelineState)
    (msg : IncomingMessage) (now : ℚ) (analysis : AnalysisResult) :
    Outcome × PipelineState × List Effect :=
  match msg.from_user with
  | none => (Outcome.noMessage, st, [])
  | some user =>
    if msg.text = "" then (Outcome.noMessage, st, [])
    else if msg.chat_type = "private" then (Outcome.privateChat, st, [])
    else
      match cfgs msg.chat_id with
      | none => (Outcome.notRegistered, st, [])
      | some cfg =>
        if cfg.is_active = false then (Outcome.inactive, st, [])
        else if in_whitelist cfg user then (Outcome.whitelisted, st, [])
        else
          let r := RateLimiter.is_flood st.rate msg.chat_id user.id now
          if r.1 then
            (Outcome.floodDropped, ⟨r.2, st.notif⟩,
              [Effect.deleteMessage msg.chat_id msg.message_id])
          else
            let action := decide_action analysis cfg
            if action = Action.approve then
              (Outcome.processed Action.approve, ⟨r.2, st.notif⟩,
                [Effect.upsertUser user.id user.username,
                  Effect.incrementProcessed cfg.chat_id])
            else
              (Outcome.processed action, ⟨r.2, st.notif⟩,
                [Effect.upsertUser user.id user.username,
                  Effect.incrementProcessed cfg.chat_id,
                  Effect.recordEvent msg.chat_id msg.message_id user.id
                    action.value (extract_confidence analysis)] ++
                  verdict_effects msg user action ++
                  [Effect.incrementSpamStats cfg.chat_id
                      (spam_counts action).1 (spam_counts action).2.1
                      (spam_counts action).2.2,
                    Effect.sendIndividualNotification cfg.owner_id
                      cfg.chat_id user.id msg.text.trim
                      (extract_confidence analysis) (action_str action)
                      msg.message_id])

section PipelineLemmas

/-- Full characterization of an `on_message` run that reaches a
non-approve verdict. -/
lemma on_message_acts (cfgs : Int → Option ChatConfig)
    (st : PipelineState) (msg : IncomingMessage) (now : ℚ)
    (analysis : AnalysisResult) (user : UserInfo) (cfg : ChatConfig)
    (huser : msg.from_user = some user)
    (htext : msg.text ≠ "")
    (htype : msg.chat_type ≠ "private")
    (hcfg : cfgs msg.chat_id = some cfg)
    (hactive : cfg.is_active = true)
    (hwl : in_whitelist cfg user = false)
    (hflood : (RateLimiter.is_flood st.rate msg.chat_id user.id now).1
      = false)
    (hact : decide_action analysis cfg ≠ Action.approve) :
    on_message cfgs st msg now analysis =
      (Outcome.processed (decide_action analysis cfg),
        ⟨(RateLimiter.is_flood st.rate msg.chat_id user.id now).2,
          st.notif⟩,
        [Effect.upsertUser user.id user.username,
          Effect.incrementProcessed cfg.chat_id,
          Effect.recordEvent msg.chat_id msg.message_id user.id
            (decide_action analysis cfg).value
            (extract_confidence analysis)] ++
          verdict_effects msg user (decide_action analysis cfg) ++
          [Effect.incrementSpamStats cfg.chat_id
              (spam_counts (decide_action analysis cfg)).1
              (spam_counts (decide_action analysis cfg)).2.1
              (spam_counts (decide_action analysis cfg)).2.2,
            Effect.sendIndividualNotification cfg.owner_id cfg.chat_id
              user.id msg.text.trim (extract_confidence analysis)
              (action_str (decide_action analysis cfg))
              msg.message_id]) := by
  unfold on_message
  rw [huser]
  dsimp only
  rw [if_neg htext, if_neg htype, hcfg]
  dsimp only
  rw [if_neg (by simp [hactive]), if_neg (by simp [hwl]),
    if_neg (by simp [hflood]), if_neg hact]

end PipelineLemmas

/-- C9: a message whose sender's username is listed in the (non-empty)
whitelist terminates the pipeline at the whitelist check with no side
effects at all: the state (rate-limiter windows and notification
buffer) is unchanged and no transport or storage effect is emitted —
no scoring, no verdict action, no counter update, no notification. -/
theorem whitelisted_sender_no_side_effects (cfgs : Int → Option ChatConfig)
    (st : PipelineState) (msg : IncomingMessage) (now : ℚ)
    (analysis : AnalysisResult) (user : UserInfo) (cfg : ChatConfig)
    (wl : List String) (u : String)
    (huser : msg.from_user = some user)
    (htext : msg.text ≠ "")
    (htype : msg.chat_type ≠ "private")
    (hcfg : cfgs msg.chat_id = some cfg)
    (hactive : cfg.is_active = true)
    (hwl : cfg.whitelist = some wl) (hwlne : wl ≠ [])
    (hu : user.username = some u) (hune : u ≠ "") (hmem : u ∈ wl) :
    on_message cfgs st msg now analysis = (Outcome.whitelisted, st, []) := by
  unfold on_message
  rw [huser]
  dsimp only
  rw [if_neg htext, if_neg htype, hcfg]
  dsimp only
  rw [if_neg (by simp [hactive]),
    if_pos (by simp [in_whitelist, hwl, hu, hwlne, hune, hmem])]

/-- Witness for C9 at a concrete message, config and state. -/
theorem whitelisted_sender_no_side_effects_witness :
    on_message
        (fun _ => some ⟨1, none, 7, "delete_only", 1, 1, true,
          some ["bob"], none⟩)
        ⟨⟨[], 0⟩, ⟨10, 300, [], []⟩⟩
        ⟨1, 100, "supergroup", some ⟨2, some "bob"⟩, "hello"⟩ 5
        ⟨⟨"keyword", 0, 1⟩, ⟨"tfidf", 0, 1⟩, ⟨"pattern", 1, 1⟩⟩ =
      (Outcome.whitelisted, ⟨⟨[], 0⟩, ⟨10, 300, [], []⟩⟩, []) :=
  whitelisted_sender_no_side_effects _ _ _ _ _ ⟨2, some "bob"⟩
    ⟨1, none, 7, "delete_only", 1, 1, true, some ["bob"], none⟩
    ["bob"] "bob" rfl (by decide) (by decide) rfl rfl rfl (by decide)
    rfl (by decide) (by decide)

/-- C6 counterexample: a concrete run reaching the `delete` verdict in
which no `PendingAlert` enters the `NotificationBuffer` — the buffer is
still empty for the owner afterwards, while the notification was
dispatched directly (outside the aggregator). -/
theorem alert_not_buffered_at_delete :
    (on_message
        (fun _ => some ⟨1, none, 7, "delete_only", 1 / 2, 1, true, none,
          none⟩)
        ⟨⟨[], 0⟩, ⟨10, 300, [], []⟩⟩
        ⟨1, 100, "supergroup", some ⟨2, some "bob"⟩, "casino"⟩ 5
        ⟨⟨"keyword", 0, 1⟩, ⟨"tfidf", 0, 1⟩,
          ⟨"pattern", 1, 1⟩⟩).1 = Outcome.processed Action.delete ∧
    lookupBuf
        (on_message
            (fun _ => some ⟨1, none, 7, "delete_only", 1 / 2, 1, true,
              none, none⟩)
            ⟨⟨[], 0⟩, ⟨10, 300, [], []⟩⟩
            ⟨1, 100, "supergroup", some ⟨2, some "bob"⟩, "casino"⟩ 5
            ⟨⟨"keyword", 0, 1⟩, ⟨"tfidf", 0, 1⟩,
              ⟨"pattern", 1, 1⟩⟩).2.1.notif.buffer 7 = [] := by
  have hact : decide_action
      ⟨⟨"keyword", 0, 1⟩, ⟨"tfidf", 0, 1⟩, ⟨"pattern", 1, 1⟩⟩
      ⟨1, none, 7, "delete_only", 1 / 2, 1, true, none, none⟩ =
      Action.delete := by
    unfold decide_action extract_confidence
    simp only [String.reduceEq, reduceIte]
    rw [if_pos (by norm_num)]
  have hflood : (RateLimiter.is_flood ⟨[], 0⟩ 1 2 5).1 = false := by
    rw [is_flood_empty,
      (flood_check_pass [] 5 (by simp) (by simp) (by simp)).trans rfl]
  have hrun := on_message_acts
    (fun _ => some ⟨1, none, 7, "delete_only", 1 / 2, 1, true, none,
      none⟩)
    ⟨⟨[], 0⟩, ⟨10, 300, [], []⟩⟩
    ⟨1, 100, "supergroup", some ⟨2, some "bob"⟩, "casino"⟩ 5
    ⟨⟨"keyword", 0, 1⟩, ⟨"tfidf", 0, 1⟩, ⟨"pattern", 1, 1⟩⟩
    ⟨2, some "bob"⟩
    ⟨1, none, 7, "delete_only", 1 / 2, 1, true, none, none⟩
    rfl (by decide) (by decide) rfl rfl (by decide) hflood
    (by rw [hact]; decide)
  rw [hrun, hact]
  exact ⟨rfl, rfl⟩

/-- C6 (amended): a message reaching a non-approve verdict triggers a
direct individual notification to the tenant owner
(`send_individual_notification`, an immediate transport send) — no
`PendingAlert` is enqueued into the `NotificationBuffer`, which the
pipeline leaves unchanged. -/
theorem spam_notifies_owner_directly (cfgs : Int → Option ChatConfig)
    (st : PipelineState) (msg : IncomingMessage) (now : ℚ)
    (analysis : AnalysisResult) (user : UserInfo) (cfg : ChatConfig)
    (huser : msg.from_user = some user)
    (htext : msg.text ≠ "")
    (htype : msg.chat_type ≠ "private")
    (hcfg : cfgs msg.chat_id = some cfg)
    (hactive : cfg.is_active = true)
    (hwl : in_whitelist cfg user = false)
    (hflood : (RateLimiter.is_flood st.rate msg.chat_id user.id now).1
      = false)
    (hact : decide_action analysis cfg ≠ Action.approve) :
    (on_message cfgs st msg now analysis).1 =
        Outcome.processed (decide_action analysis cfg) ∧
      (on_message cfgs st msg now analysis).2.1.notif = st.notif ∧
      Effect.sendIndividualNotification cfg.owner_id cfg.chat_id user.id
          msg.text.trim (extract_confidence analysis)
          (action_str (decide_action analysis cfg)) msg.message_id ∈
        (on_message cfgs st msg now analysis).2.2 := by
  have hrun := on_message_acts cfgs st msg now analysis user cfg huser
    htext htype hcfg hactive hwl hflood hact
  refine ⟨by rw [hrun], by rw [hrun], ?_⟩
  rw [hrun]
  simp

/-- Witness for C6 (amended theorem) at a concrete run. -/
theorem spam_notifies_owner_directly_witness :
    (on_message
        (fun _ => some ⟨1, none, 7, "notify_only", 1 / 2, 1, true, none,
          none⟩)
        ⟨⟨[], 0⟩, ⟨10, 300, [], []⟩⟩
        ⟨1, 100, "supergroup", some ⟨2, some "bob"⟩, "casino"⟩ 5
        ⟨⟨"keyword", 0, 1⟩, ⟨"tfidf", 0, 1⟩, ⟨"pattern", 1, 1⟩⟩).1 =
      Outcome.processed
        (decide_action
          ⟨⟨"keyword", 0, 1⟩, ⟨"tfidf", 0, 1⟩, ⟨"pattern", 1, 1⟩⟩
          ⟨1, none, 7, "notify_only", 1 / 2, 1, true, none, none⟩) ∧
    (on_message
        (fun _ => some ⟨1, none, 7, "notify_only", 1 / 2, 1, true, none,
          none⟩)
        ⟨⟨[], 0⟩, ⟨10, 300, [], []⟩⟩
        ⟨1, 100, "supergroup", some ⟨2, some "bob"⟩, "casino"⟩ 5
        ⟨⟨"keyword", 0, 1⟩, ⟨"tfidf", 0, 1⟩,
          ⟨"pattern", 1, 1⟩⟩).2.1.notif = ⟨10, 300, [], []⟩ ∧
    Effect.sendIndividualNotification 7 1 2 ("casino".trim)
        (extract_confidence
          ⟨⟨"keyword", 0, 1⟩, ⟨"tfidf", 0, 1⟩, ⟨"pattern", 1, 1⟩⟩)
        (action_str
          (decide_action
            ⟨⟨"keyword", 0, 1⟩, ⟨"tfidf", 0, 1⟩, ⟨"pattern", 1, 1⟩⟩
            ⟨1, none, 7, "notify_only", 1 / 2, 1, true, none, none⟩))
        100 ∈
      (on_message
          (fun _ => some ⟨1, none, 7, "notify_only", 1 / 2, 1, true,
            none, none⟩)
          ⟨⟨[], 0⟩, ⟨10, 300, [], []⟩⟩
          ⟨1, 100, "supergroup", some ⟨2, some "bob"⟩, "casino"⟩ 5
          ⟨⟨"keyword", 0, 1⟩, ⟨"tfidf", 0, 1⟩,
            ⟨"pattern", 1, 1⟩⟩).2.2 :=
  spam_notifies_owner_directly
    (fun _ => some ⟨1, none, 7, "notify_only", 1 / 2, 1, true, none,
      none⟩)
    ⟨⟨[], 0⟩, ⟨10, 300, [], []⟩⟩
    ⟨1, 100, "supergroup", some ⟨2, some "bob"⟩, "casino"⟩ 5
    ⟨⟨"keyword", 0, 1⟩, ⟨"tfidf", 0, 1⟩, ⟨"pattern", 1, 1⟩⟩
    ⟨2, some "bob"⟩
    ⟨1, none, 7, "notify_only", 1 / 2, 1, true, none, none⟩
    rfl (by decide) (by decide) rfl rfl (by decide)
    (by rw [is_flood_empty,
      (flood_check_pass [] 5 (by simp) (by simp) (by simp)).trans rfl])
    (by unfold decide_action extract_confidence
        simp only [String.reduceEq, reduceIte]
        rw [if_pos (by norm_num)]
        decide)

end DespamLy
